import Mathlib

/-!
Verification of the Session Connection and Realtime-Stream Reconciliation
Controller of the voice-ai-agent client, against its natural-language
specification.  The definitions below are a shallow embedding of
src/client/src/components/VoiceAgent.jsx and src/client/src/lib/api.js.
-/

/- ## Connection state machine and retry controller

The retry controller lives in the VoiceAgent component: a retry-attempt
counter held in a ref, a handleRetry callback guarded by the counter and the
connection state, an effect that resets the counter on Connected, and an
effect that arms a 15 s watchdog timer whenever the connection state is
Connecting or Reconnecting, clearing it on exit.  The backoff setTimeout
scheduled inside handleRetry is not stored anywhere, so nothing ever clears
it.  The session object itself comes from the external media-session
library; its reaction to start and end calls is modelled from the spec
(section 4.2): start enters Connecting, end yields Disconnected immediately.
-/

/-- Connection states of the media session (livekit ConnectionState values
used by the component). -/
inductive ConnState
  | disconnected
  | connecting
  | connected
  | reconnecting
deriving DecidableEq

/-- Retry budget: the constant maxRetries = 2 in VoiceAgent.jsx. -/
def maxRetries : Nat := 2

/-- Error message thrown by tokenSource when the credential response lacks a
token or a server URL. -/
def credentialErrorMsg : String := "Token endpoint response missing LiveKit connection fields"

/-- Combined state of the session plus the retry controller.
startCount is a ghost counter of session.start invocations (connection
attempts); watchdogArmed models the 15 s effect timer; backoffPending models
the untracked setTimeout scheduled by handleRetry. -/
structure CtrlState where
  connectionState : ConnState
  retryAttempts : Nat
  watchdogArmed : Bool
  backoffPending : Bool
  lastError : Option String
  startCount : Nat
deriving DecidableEq

/-- Initial state: component mounted, no session started. -/
def initCtrl : CtrlState :=
  { connectionState := ConnState.disconnected
    retryAttempts := 0
    watchdogArmed := false
    backoffPending := false
    lastError := none
    startCount := 0 }

/-- Modelled from the spec: session.start of the external session library
enters Connecting; the watchdog effect arms its timer on entry to
Connecting. -/
def sessionStart (s : CtrlState) : CtrlState :=
  { s with connectionState := ConnState.connecting
           watchdogArmed := true
           startCount := s.startCount + 1 }

/-- Modelled from the spec: session.end of the external session library
yields Disconnected immediately; the watchdog effect cleanup clears its
timer on leaving Connecting and Reconnecting.  The backoff timeout is left
untouched, faithful to the code, which keeps no handle to it. -/
def sessionEnd (s : CtrlState) : CtrlState :=
  { s with connectionState := ConnState.disconnected
           watchdogArmed := false }

/-- States in which handleRetry is willing to act (Connecting or
Reconnecting, per the guard in VoiceAgent.jsx). -/
def isRetryableState : ConnState → Bool
  | ConnState.connecting => true
  | ConnState.reconnecting => true
  | _ => false

/-- The handleRetry callback of VoiceAgent.jsx: return unless the attempt
counter is below maxRetries and the state is Connecting or Reconnecting;
otherwise increment the counter, end the session and schedule a backoff
restart (a setTimeout whose handle is discarded). -/
def handleRetry (s : CtrlState) : CtrlState :=
  if maxRetries ≤ s.retryAttempts then s
  else if ¬ isRetryableState s.connectionState then s
  else
    { sessionEnd { s with retryAttempts := s.retryAttempts + 1 } with
        backoffPending := true }

/-- Events driving the controller: user clicks, library callbacks, timer
firings, and a failing credential-provider call. -/
inductive Ev
  | userStart
  | credentialFail
  | joinSucceeds
  | transportDrop
  | watchdogFire
  | backoffFire
  | userEnd
deriving DecidableEq

/-- One event step of the combined controller.  userStart and userEnd are
the two public operations; joinSucceeds and transportDrop are the library
callbacks (the Connected effect of VoiceAgent.jsx resets the retry counter);
credentialFail records the provider failure in the session error (the
session stays in Connecting, the stalled situation the 15 s watchdog exists
for); watchdogFire consumes the armed timer and runs handleRetry;
backoffFire consumes the pending backoff timeout and restarts the
session. -/
def step (s : CtrlState) (e : Ev) : CtrlState :=
  match e with
  | Ev.userStart => sessionStart s
  | Ev.credentialFail =>
      if s.connectionState = ConnState.connecting then
        { s with lastError := some credentialErrorMsg }
      else s
  | Ev.joinSucceeds =>
      if isRetryableState s.connectionState then
        { s with connectionState := ConnState.connected
                 watchdogArmed := false
                 retryAttempts := 0 }
      else s
  | Ev.transportDrop =>
      if s.connectionState = ConnState.connected then
        { s with connectionState := ConnState.reconnecting
                 watchdogArmed := true }
      else s
  | Ev.watchdogFire =>
      if s.watchdogArmed then handleRetry { s with watchdogArmed := false }
      else s
  | Ev.backoffFire =>
      if s.backoffPending then sessionStart { s with backoffPending := false }
      else s
  | Ev.userEnd => sessionEnd s

/-- Run a whole event trace from the initial state. -/
def runTrace (events : List Ev) : CtrlState :=
  events.foldl step initCtrl

/-- Scenario of claim C1: the credential provider fails on every call, so
every attempt stalls in Connecting until the watchdog fires. -/
def alwaysFailTrace : List Ev :=
  [Ev.userStart, Ev.credentialFail, Ev.watchdogFire,
   Ev.backoffFire, Ev.credentialFail, Ev.watchdogFire,
   Ev.backoffFire, Ev.credentialFail, Ev.watchdogFire]

/-- Failed, as an abstraction of the code: the retry budget is exhausted,
an error is surfaced, the session is not connected, and no timer is pending,
so no further attempt can fire without user action. -/
def FailedState (s : CtrlState) : Prop :=
  maxRetries ≤ s.retryAttempts ∧ s.lastError.isSome = true ∧
    s.connectionState ≠ ConnState.connected ∧
    s.watchdogArmed = false ∧ s.backoffPending = false

/-- Trace of claim C4: the watchdog schedules a backoff retry, the user ends
the call while that backoff timeout is pending. -/
def endDuringBackoffTrace : List Ev :=
  [Ev.userStart, Ev.watchdogFire, Ev.userEnd]

/-- C1: with maxRetries = 2 and a credential provider failing on every call,
one user start leads to exactly 3 connection attempts (the initial one plus
2 retries), after which the controller is in the Failed condition with the
error surfaced, and a further watchdog or backoff firing launches no new
attempt. -/
theorem c1_retry_exhaustion :
    (runTrace alwaysFailTrace).startCount = 3 ∧
    FailedState (runTrace alwaysFailTrace) ∧
    (step (runTrace alwaysFailTrace) Ev.watchdogFire).startCount = 3 ∧
    (step (runTrace alwaysFailTrace) Ev.backoffFire).startCount = 3 := by
  refine ⟨by decide, ?_, by decide, by decide⟩
  unfold FailedState
  decide

/-- C4 (code bug): the backoff setTimeout scheduled by handleRetry is never
stored or cleared, so ending the call while it is pending does not cancel
it: after userEnd the state is Disconnected but the backoff is still
pending, and when it fires the session restarts and re-enters Connecting —
a retry and a state transition after end() returned. -/
theorem c4_backoff_survives_end :
    (runTrace endDuringBackoffTrace).connectionState = ConnState.disconnected ∧
    (runTrace endDuringBackoffTrace).backoffPending = true ∧
    (step (runTrace endDuringBackoffTrace) Ev.backoffFire).connectionState
      = ConnState.connecting ∧
    (step (runTrace endDuringBackoffTrace) Ev.backoffFire).startCount
      = (runTrace endDuringBackoffTrace).startCount + 1 := by
  decide

/-- Reachable states of the controller from the mounted component. -/
inductive Reachable : CtrlState → Prop
  | init : Reachable initCtrl
  | next : ∀ (s : CtrlState) (e : Ev), Reachable s → Reachable (step s e)

/-- Every single event step keeps the retry counter within the budget. -/
theorem step_retryAttempts_le (s : CtrlState) (e : Ev)
    (h : s.retryAttempts ≤ maxRetries) : (step s e).retryAttempts ≤ maxRetries := by
  have hr : ∀ t : CtrlState, t.retryAttempts ≤ maxRetries →
      (handleRetry t).retryAttempts ≤ maxRetries := by
    intro t ht
    unfold handleRetry sessionEnd
    split
    · exact ht
    · split
      · exact ht
      · dsimp only
        omega
  cases e with
  | userStart => exact h
  | credentialFail =>
      dsimp only [step]
      split <;> exact h
  | joinSucceeds =>
      dsimp only [step]
      split
      · exact Nat.zero_le _
      · exact h
  | transportDrop =>
      dsimp only [step]
      split <;> exact h
  | watchdogFire =>
      dsimp only [step]
      split
      · exact hr _ h
      · exact h
  | backoffFire =>
      dsimp only [step]
      split <;> exact h
  | userEnd => exact h

/-- C9: the retry handler is a guarded no-op — it changes nothing unless the
state is Connecting or Reconnecting and the counter is below maxRetries; in
every reachable state the retry counter never exceeds maxRetries; and a
watchdog firing while Connected or Disconnected triggers no retry: counter,
attempt count, connection state and pending backoff are all unchanged. -/
theorem c9_retry_guard_invariant :
    (∀ s : CtrlState,
        (maxRetries ≤ s.retryAttempts ∨ isRetryableState s.connectionState = false) →
        handleRetry s = s) ∧
    (∀ s : CtrlState, Reachable s → s.retryAttempts ≤ maxRetries) ∧
    (∀ s : CtrlState,
        (s.connectionState = ConnState.connected ∨
         s.connectionState = ConnState.disconnected) →
        (step s Ev.watchdogFire).retryAttempts = s.retryAttempts ∧
        (step s Ev.watchdogFire).startCount = s.startCount ∧
        (step s Ev.watchdogFire).connectionState = s.connectionState ∧
        (step s Ev.watchdogFire).backoffPending = s.backoffPending) := by
  refine ⟨?_, ?_, ?_⟩
  · intro s h
    rcases h with h | h
    · simp [handleRetry, h]
    · simp only [handleRetry, h]
      split
      · rfl
      · simp
  · intro s hs
    induction hs with
    | init => simp [initCtrl, maxRetries]
    | next s e _ ih => exact step_retryAttempts_le s e ih
  · intro s h
    have hr : isRetryableState s.connectionState = false := by
      rcases h with h | h <;> simp [isRetryableState, h]
    simp only [step]
    split
    · simp [handleRetry, hr]
    · exact ⟨rfl, rfl, rfl, rfl⟩

/-- Witness for C9 at concrete states: the guard makes handleRetry a no-op
on the initial state, the invariant holds at the initial state, and a
watchdog firing on a connected state changes no retry counter. -/
theorem c9_retry_guard_witness :
    handleRetry initCtrl = initCtrl ∧
    initCtrl.retryAttempts ≤ maxRetries ∧
    (step { initCtrl with connectionState := ConnState.connected }
        Ev.watchdogFire).retryAttempts
      = ({ initCtrl with connectionState := ConnState.connected } : CtrlState).retryAttempts :=
  ⟨c9_retry_guard_invariant.1 initCtrl (Or.inr rfl),
   c9_retry_guard_invariant.2.1 initCtrl Reachable.init,
   (c9_retry_guard_invariant.2.2
      { initCtrl with connectionState := ConnState.connected } (Or.inl rfl)).1⟩

/- ## Transcript merge for display

TranscriptView receives the raw per-role segment lists produced by the two
transcription hooks, pushes the agent segments and then the user segments
whose trimmed text is non-empty into one array, converting each to a display
record with timestamp firstReceivedTime-or-0, and sorts that array with the
comparator on timestamps.  Array.prototype.sort is stable, so the sort is
modelled by the stable List.insertionSort on the timestamp order. -/

/-- Raw transcript segment as delivered by the transcription hooks; text,
id and firstReceivedTime may be absent. -/
structure RawSegment where
  text : Option String
  id : Option String
  final : Bool
  firstReceivedTime : Option Nat
deriving DecidableEq

/-- Originating stream of a segment. -/
inductive Role
  | agent
  | user
deriving DecidableEq

/-- Display record pushed into allSegments by TranscriptView. -/
structure ViewSegment where
  role : Role
  text : String
  id : String
  isFinal : Bool
  timestamp : Nat
deriving DecidableEq

/-- Guard of the push: segment.text exists and trims to a non-empty
string. -/
def keepSegment (s : RawSegment) : Bool :=
  match s.text with
  | none => false
  | some t => ¬ (t.trim = "")

/-- Timestamp assigned by TranscriptView: firstReceivedTime, or 0 when it is
absent (or itself 0, both falsy in the source). -/
def rawTimestamp (s : RawSegment) : Nat :=
  match s.firstReceivedTime with
  | none => 0
  | some n => n

/-- Role name as interpolated into the fallback id. -/
def roleName : Role → String
  | Role.agent => "agent"
  | Role.user => "user"

/-- String form of firstReceivedTime as interpolated into the fallback id
(an absent field prints as undefined). -/
def frtString (s : RawSegment) : String :=
  match s.firstReceivedTime with
  | none => "undefined"
  | some n => toString n

/-- Display id: segment.id when truthy, else the role-prefixed fallback. -/
def segId (r : Role) (s : RawSegment) : String :=
  match s.id with
  | some i => if i = "" then roleName r ++ "-" ++ frtString s else i
  | none => roleName r ++ "-" ++ frtString s

/-- Conversion of one kept raw segment into its display record. -/
def toView (r : Role) (s : RawSegment) : ViewSegment :=
  { role := r
    text := s.text.getD ""
    id := segId r s
    isFinal := s.final
    timestamp := rawTimestamp s }

/-- Display records contributed by one role, in original stream order. -/
def roleSegments (r : Role) (l : List RawSegment) : List ViewSegment :=
  (l.filter keepSegment).map (toView r)

/-- Order used by the sort comparator of TranscriptView. -/
def tsLe (a b : ViewSegment) : Prop :=
  a.timestamp ≤ b.timestamp

instance : DecidableRel tsLe := fun a b => Nat.decLe a.timestamp b.timestamp

instance : IsTotal ViewSegment tsLe :=
  ⟨fun a b => Nat.le_total a.timestamp b.timestamp⟩

instance : IsTrans ViewSegment tsLe :=
  ⟨fun _ _ _ hab hbc => Nat.le_trans hab hbc⟩

/-- Merged transcript view produced by TranscriptView: agent entries then
user entries, each filtered and converted, then stably sorted by
timestamp. -/
def mergedView (agentSegs userSegs : List RawSegment) : List ViewSegment :=
  List.insertionSort tsLe
    (roleSegments Role.agent agentSegs ++ roleSegments Role.user userSegs)

/-- Inserting an element whose timestamp is t puts it in front of the other
elements with timestamp t: positions skipped by orderedInsert hold strictly
smaller timestamps. -/
theorem filter_orderedInsert_eq (t : Nat) (x : ViewSegment)
    (l : List ViewSegment) (hx : x.timestamp = t) :
    (List.orderedInsert tsLe x l).filter (fun s => s.timestamp == t) =
      x :: l.filter (fun s => s.timestamp == t) := by
  induction l with
  | nil => simp [List.orderedInsert, hx]
  | cons h tl ih =>
      by_cases hle : tsLe x h
      · simp [List.orderedInsert, hle, List.filter, hx]
      · have hlt : h.timestamp < x.timestamp := Nat.lt_of_not_le hle
        have hne : (h.timestamp == t) = false := by
          simp only [beq_eq_false_iff_ne, ne_eq]
          omega
        simp [List.orderedInsert, hle, List.filter, hne, ih]

/-- Inserting an element whose timestamp is not t leaves the t-filtered
subsequence unchanged. -/
theorem filter_orderedInsert_ne (t : Nat) (x : ViewSegment)
    (l : List ViewSegment) (hx : x.timestamp ≠ t) :
    (List.orderedInsert tsLe x l).filter (fun s => s.timestamp == t) =
      l.filter (fun s => s.timestamp == t) := by
  have hxf : (x.timestamp == t) = false := by
    simp only [beq_eq_false_iff_ne, ne_eq]
    exact hx
  induction l with
  | nil => simp [List.orderedInsert, hxf]
  | cons h tl ih =>
      by_cases hle : tsLe x h
      · simp [List.orderedInsert, hle, List.filter, hxf]
      · simp [List.orderedInsert, hle, List.filter, ih]

/-- Stability of the sort with respect to the timestamp key: for every t the
subsequence of elements with timestamp t is unchanged by the sort. -/
theorem filter_insertionSort (t : Nat) (l : List ViewSegment) :
    (List.insertionSort tsLe l).filter (fun s => s.timestamp == t) =
      l.filter (fun s => s.timestamp == t) := by
  induction l with
  | nil => rfl
  | cons x tl ih =>
      by_cases hx : x.timestamp = t
      · rw [List.insertionSort, filter_orderedInsert_eq t x _ hx, ih]
        simp [List.filter, hx]
      · rw [List.insertionSort, filter_orderedInsert_ne t x _ hx, ih]
        have hxf : (x.timestamp == t) = false := by
          simp only [beq_eq_false_iff_ne, ne_eq]
          exact hx
        simp [List.filter, hxf]

/-- C2: the merged view is a permutation of exactly the converted segments
with non-empty trimmed text (agent list then user list), it is sorted by
timestamp non-decreasing, and for each timestamp value the segments carrying
it appear as the agent ones in original order followed by the user ones in
original order — so equal-timestamp agent segments precede user segments and
each role keeps its stream order. -/
theorem c2_merged_view_order (A U : List RawSegment) :
    (mergedView A U).Perm
      (roleSegments Role.agent A ++ roleSegments Role.user U) ∧
    (mergedView A U).Sorted tsLe ∧
    ∀ t : Nat,
      (mergedView A U).filter (fun s => s.timestamp == t) =
        (roleSegments Role.agent A).filter (fun s => s.timestamp == t) ++
        (roleSegments Role.user U).filter (fun s => s.timestamp == t) := by
  refine ⟨List.perm_insertionSort tsLe _, List.sorted_insertionSort tsLe _, ?_⟩
  intro t
  rw [mergedView, filter_insertionSort, List.filter_append]

/-- A list sorted by timestamp splits as its zero-timestamp elements, in
order, followed by its positive-timestamp elements, in order. -/
theorem sorted_zero_split (l : List ViewSegment) (hl : l.Sorted tsLe) :
    l = l.filter (fun s => s.timestamp == 0) ++
        l.filter (fun s => !(s.timestamp == 0)) := by
  induction l with
  | nil => rfl
  | cons x tl ih =>
      have hrel : ∀ y ∈ tl, tsLe x y := (List.sorted_cons.mp hl).1
      have htl : tl.Sorted tsLe := (List.sorted_cons.mp hl).2
      by_cases hx : x.timestamp = 0
      · simp only [List.filter, hx]
        simpa [List.filter] using ih htl
      · have hpos : 0 < x.timestamp := Nat.pos_of_ne_zero hx
        have hnone : tl.filter (fun s => s.timestamp == 0) = [] := by
          rw [List.filter_eq_nil_iff]
          intro y hy
          have : 0 < y.timestamp := Nat.lt_of_lt_of_le hpos (hrel y hy)
          simp only [beq_iff_eq]
          omega
        have hall : tl.filter (fun s => !(s.timestamp == 0)) = tl := by
          rw [List.filter_eq_self]
          intro y hy
          have : 0 < y.timestamp := Nat.lt_of_lt_of_le hpos (hrel y hy)
          simp only [Bool.not_eq_true', beq_eq_false_iff_ne, ne_eq]
          omega
        have hxf : (x.timestamp == 0) = false := by
          simp only [beq_eq_false_iff_ne, ne_eq]
          exact hx
        simp [List.filter, hxf, hnone, hall]

/-- C10: a raw segment with no firstReceivedTime is assigned timestamp 0 by
the conversion, and the merged view lists all zero-timestamp entries before
every entry with a positive timestamp. -/
theorem c10_zero_timestamp_first :
    (∀ (r : Role) (s : RawSegment), s.firstReceivedTime = none →
        (toView r s).timestamp = 0) ∧
    (∀ A U : List RawSegment,
        mergedView A U =
          (mergedView A U).filter (fun s => s.timestamp == 0) ++
          (mergedView A U).filter (fun s => !(s.timestamp == 0))) := by
  constructor
  · intro r s hs
    simp [toView, rawTimestamp, hs]
  · intro A U
    exact sorted_zero_split _ (List.sorted_insertionSort tsLe _)

/-- Witness for C10 on a concrete segment without firstReceivedTime. -/
theorem c10_zero_timestamp_witness :
    (toView Role.user
        { text := some "hi", id := some "u1", final := true,
          firstReceivedTime := none }).timestamp = 0 :=
  c10_zero_timestamp_first.1 Role.user
    { text := some "hi", id := some "u1", final := true,
      firstReceivedTime := none } rfl

/- ## Side-channel citation messages

The rag-sources data-channel handler decodes the payload as UTF-8, parses
it as JSON, and calls the update callback with data.sources when data.type
is the string rag_sources and data.sources is truthy.  Decoding and parsing
failures are caught and logged, leaving the citation set untouched.  The
payload after decoding and parsing is modelled as an optional JSON value
(none when the decode or parse throws); accessing a property of a parsed
value that is not an object yields undefined, or throws for null, and in
both cases the handler leaves the set unchanged, which the model reflects
by getField returning none off objects. -/

/-- JSON values as produced by JSON.parse. -/
inductive Json
  | null
  | bool (b : Bool)
  | num (n : Int)
  | str (s : String)
  | arr (elems : List Json)
  | obj (fields : List (String × Json))

/-- Property lookup in a parsed JSON object: JSON.parse keeps the last
occurrence of a duplicated key. -/
def lookupField : List (String × Json) → String → Option Json
  | [], _ => none
  | (k, v) :: rest, key =>
      match lookupField rest key with
      | some w => some w
      | none => if k == key then some v else none

/-- Property access on a parsed value; undefined (none) off objects. -/
def getField : Json → String → Option Json
  | Json.obj fields, key => lookupField fields key
  | _, _ => none

/-- JavaScript truthiness of a parsed JSON value: null, false, 0 and the
empty string are falsy; every array and object is truthy, including the
empty array. -/
def truthy : Json → Bool
  | Json.null => false
  | Json.bool b => b
  | Json.num n => n != 0
  | Json.str s => s != ""
  | Json.arr _ => true
  | Json.obj _ => true

/-- Truthiness of a possibly-undefined property value. -/
def jsTruthyOpt : Option Json → Bool
  | none => false
  | some v => truthy v

/-- Strict equality test data.type === the string rag_sources. -/
def isRagType : Option Json → Bool
  | some (Json.str s) => s == "rag_sources"
  | _ => false

/-- The rag-sources handler of AgentVisualizer: on a parse failure the
citation set is untouched; otherwise the set is replaced by data.sources
exactly when data.type is the string rag_sources and data.sources is
truthy. -/
def handleRagMessage (parsed : Option Json) (citations : Json) : Json :=
  match parsed with
  | none => citations
  | some data =>
      if isRagType (getField data "type") && jsTruthyOpt (getField data "sources") then
        (getField data "sources").getD Json.null
      else citations

/-- Message with the right type and an empty sources array. -/
def ragEmptySourcesMsg : Json :=
  Json.obj [("type", Json.str "rag_sources"), ("sources", Json.arr [])]

/-- A non-empty citation set present before the message arrives. -/
def sampleCitations : Json :=
  Json.arr [Json.str "old"]

/-- Message carrying two citations, as in the spec example. -/
def ragTwoMsg : Json :=
  Json.obj [("type", Json.str "rag_sources"),
            ("sources", Json.arr [Json.obj [("content", Json.str "A")],
                                  Json.obj [("content", Json.str "B")]])]

/-- Message of another type, as in the spec example. -/
def ragOtherMsg : Json :=
  Json.obj [("type", Json.str "other")]

/-- Counterexample to C3 as stated: a message of type rag_sources whose
sources array is empty does not leave the citation set unchanged — the
empty array is truthy in JavaScript, so the handler replaces the set with
the empty array. -/
theorem c3_empty_sources_counterexample :
    handleRagMessage (some ragEmptySourcesMsg) sampleCitations = Json.arr [] ∧
    handleRagMessage (some ragEmptySourcesMsg) sampleCitations ≠ sampleCitations := by
  refine ⟨rfl, ?_⟩
  intro h
  have h2 : Json.arr [] = Json.arr [Json.str "old"] := h
  injection h2 with h3
  exact List.noConfusion h3

/-- C3 amended: the citation set is replaced wholesale, in order, by the
value of sources exactly when the payload parses as JSON whose type property
is the string rag_sources and whose sources property is present and truthy
(an empty array is truthy, so it also replaces the set); an unparseable
payload or a message failing that condition leaves the set completely
unchanged. -/
theorem c3_rag_replace_amended (p : Option Json) (cits : Json) :
    (∀ data srcs, p = some data →
        getField data "type" = some (Json.str "rag_sources") →
        getField data "sources" = some srcs →
        truthy srcs = true →
        handleRagMessage p cits = srcs) ∧
    (p = none → handleRagMessage p cits = cits) ∧
    (∀ data, p = some data →
        (isRagType (getField data "type") &&
          jsTruthyOpt (getField data "sources")) = false →
        handleRagMessage p cits = cits) := by
  refine ⟨?_, ?_, ?_⟩
  · intro data srcs hp hty hsrc htr
    subst hp
    simp [handleRagMessage, hty, hsrc, isRagType, jsTruthyOpt, htr]
  · intro hp
    subst hp
    rfl
  · intro data hp hcond
    subst hp
    simp [handleRagMessage, hcond]

/-- Witness for C3 on the two spec examples: the two-citation message
replaces the set with exactly those two citations in order, and the message
of another type leaves the set unchanged. -/
theorem c3_rag_witness :
    handleRagMessage (some ragTwoMsg) sampleCitations
      = Json.arr [Json.obj [("content", Json.str "A")],
                  Json.obj [("content", Json.str "B")]] ∧
    handleRagMessage (some ragOtherMsg) sampleCitations = sampleCitations :=
  ⟨(c3_rag_replace_amended (some ragTwoMsg) sampleCitations).1 ragTwoMsg
      (Json.arr [Json.obj [("content", Json.str "A")],
                 Json.obj [("content", Json.str "B")]]) rfl rfl rfl rfl,
   (c3_rag_replace_amended (some ragOtherMsg) sampleCitations).2.2 ragOtherMsg rfl rfl⟩

/- ## Credential extraction in tokenSource

The custom token source calls getToken and then reads the participant token
from the first truthy of participant_token, accessToken and token, and the
server URL from the first truthy of server_url and livekit_url; when either
read comes up falsy it throws the missing-connection-fields error.  Fields
of the response are modelled as optional strings (absent or present). -/

/-- Shape of the token endpoint response, with every accepted alias. -/
structure TokenResponse where
  participant_token : Option String
  accessToken : Option String
  token : Option String
  server_url : Option String
  livekit_url : Option String
deriving DecidableEq

/-- Truthiness of an optional string field: present and non-empty. -/
def strTruthy : Option String → Bool
  | none => false
  | some s => s != ""

/-- The JavaScript or-else on two field reads: the left one when truthy,
otherwise the right one. -/
def jsOr (a b : Option String) : Option String :=
  if strTruthy a then a else b

/-- Participant token chosen by tokenSource. -/
def pickParticipantToken (d : TokenResponse) : Option String :=
  jsOr d.participant_token (jsOr d.accessToken d.token)

/-- Server URL chosen by tokenSource. -/
def pickServerUrl (d : TokenResponse) : Option String :=
  jsOr d.server_url d.livekit_url

/-- Result value returned by the token source on success. -/
structure Credential where
  participantToken : String
  serverUrl : String
deriving DecidableEq

/-- Credential extraction of tokenSource: throw the missing-fields error
when either chosen value is falsy, else return both. -/
def fetchCredential (d : TokenResponse) : Except String Credential :=
  if strTruthy (pickParticipantToken d) && strTruthy (pickServerUrl d) then
    Except.ok { participantToken := (pickParticipantToken d).getD ""
                serverUrl := (pickServerUrl d).getD "" }
  else
    Except.error credentialErrorMsg

/-- Whether some token alias carries a non-empty value. -/
def tokenPresent (d : TokenResponse) : Bool :=
  strTruthy d.participant_token || strTruthy d.accessToken || strTruthy d.token

/-- Whether some URL alias carries a non-empty value. -/
def urlPresent (d : TokenResponse) : Bool :=
  strTruthy d.server_url || strTruthy d.livekit_url

/-- Truthiness of the or-else is the disjunction of the truthiness of its
operands. -/
theorem strTruthy_jsOr (a b : Option String) :
    strTruthy (jsOr a b) = (strTruthy a || strTruthy b) := by
  unfold jsOr
  cases ha : strTruthy a <;> simp [ha]

/-- C5: the credential fetch succeeds with a pair whenever some token alias
and some URL alias are non-empty, and it fails with the
missing-connection-fields error exactly when a token alias or a URL alias is
absent or empty under all of its names. -/
theorem c5_credential_fields (d : TokenResponse) :
    ((tokenPresent d && urlPresent d) = true →
        ∃ c : Credential, fetchCredential d = Except.ok c) ∧
    (fetchCredential d = Except.error credentialErrorMsg ↔
        (tokenPresent d && urlPresent d) = false) := by
  have hc : (strTruthy (pickParticipantToken d) && strTruthy (pickServerUrl d))
      = (tokenPresent d && urlPresent d) := by
    simp [pickParticipantToken, pickServerUrl, tokenPresent, urlPresent,
      strTruthy_jsOr, Bool.or_assoc]
  constructor
  · intro h
    refine ⟨{ participantToken := (pickParticipantToken d).getD ""
              serverUrl := (pickServerUrl d).getD "" }, ?_⟩
    unfold fetchCredential
    rw [hc, h]
    rfl
  · unfold fetchCredential
    rw [hc]
    cases hcb : (tokenPresent d && urlPresent d) <;> simp

/-- Response carrying the primary aliases, from the spec scenario. -/
def okResponse : TokenResponse :=
  { participant_token := some "t1", accessToken := none, token := none
    server_url := some "wss://x", livekit_url := none }

/-- Response whose token alias is empty and whose URL aliases are absent. -/
def badResponse : TokenResponse :=
  { participant_token := some "", accessToken := none, token := none
    server_url := none, livekit_url := none }

/-- Witness for C5 on concrete responses: the well-formed response yields a
credential pair and the response with an empty token and no URL fails with
the missing-fields error. -/
theorem c5_credential_witness :
    (∃ c : Credential, fetchCredential okResponse = Except.ok c) ∧
    fetchCredential badResponse = Except.error credentialErrorMsg :=
  ⟨(c5_credential_fields okResponse).1 (by decide),
   (c5_credential_fields badResponse).2.mpr (by decide)⟩

/- ## Token request body

getToken in api.js declares two parameters and posts JSON.stringify of an
object with exactly room_name and participant_name.  The call site in
tokenSource passes a third argument, an agent name, but JavaScript drops
arguments beyond the declared parameters, so the body never carries an
agent_name field. -/

/-- Body built by getToken: exactly the two declared fields. -/
def getTokenBody (roomName participantName : String) : List (String × String) :=
  [("room_name", roomName), ("participant_name", participantName)]

/-- Body of the credential request issued for a session attempt: tokenSource
passes an agent name as a third argument to getToken, which declares only
two parameters, so the extra argument is discarded. -/
def tokenRequestBody (roomName participantName : String)
    (_agentName : Option String) : List (String × String) :=
  getTokenBody roomName participantName

/-- C7 (code bug): the credential request body carries room_name and
participant_name but never an agent_name field, even when the caller
supplies an agent name — shown in general and at the concrete call
tokenSource makes. -/
theorem c7_agent_name_dropped :
    (∀ (r p : String) (a : Option String),
        (tokenRequestBody r p a).lookup "agent_name" = none ∧
        (tokenRequestBody r p a).map Prod.fst = ["room_name", "participant_name"]) ∧
    (tokenRequestBody "voice-demo-s" "user-s" (some "voice-agent")).lookup
        "agent_name" = none := by
  refine ⟨?_, rfl⟩
  intro r p a
  exact ⟨rfl, rfl⟩

/- ## Session identifiers

The useState initializer of VoiceAgent draws one random UUID when the
component mounts and builds roomName and participantName from it; the
initializer does not run again, and tokenSource reads the same record on
every credential fetch, so the attempt number has no influence on the
identifiers within a mount. -/

/-- Room and participant identifiers for one mounted component. -/
structure SessionParams where
  roomName : String
  participantName : String
deriving DecidableEq

/-- Identifiers built from the random session id drawn at mount time. -/
def makeSessionParams (sessionId : String) : SessionParams :=
  { roomName := "voice-demo-" ++ sessionId
    participantName := "user-" ++ sessionId }

/-- Identifiers used by attempt number k of a mount: the useState
initializer runs once per mount, so every attempt reads the same record and
the attempt number is ignored. -/
def attemptParams (sessionId : String) (_attempt : Nat) : SessionParams :=
  makeSessionParams sessionId

/-- Counterexample to C8 as stated: two distinct session attempts of the
same mount use the very same roomName and participantName pair, so fresh
generation per attempt fails. -/
theorem c8_params_reuse_counterexample :
    (0 : Nat) ≠ 1 ∧
    attemptParams "00000000-0000-4000-8000-000000000000" 0 =
      attemptParams "00000000-0000-4000-8000-000000000000" 1 :=
  ⟨by decide, rfl⟩

/-- C8 amended: roomName and participantName are non-empty identifiers
derived from a random session id drawn once per component mount; every
attempt within a mount reuses the same pair, and mounts with distinct
session ids get distinct pairs. -/
theorem c8_params_per_mount_amended :
    (∀ (sid : String) (i j : Nat), attemptParams sid i = attemptParams sid j) ∧
    (∀ sid : String, (makeSessionParams sid).roomName ≠ "" ∧
        (makeSessionParams sid).participantName ≠ "") ∧
    (∀ s1 s2 : String, s1 ≠ s2 → makeSessionParams s1 ≠ makeSessionParams s2) := by
  refine ⟨fun _ _ _ => rfl, ?_, ?_⟩
  · intro sid
    constructor
    · intro h
      have hl := congrArg String.length h
      simp [makeSessionParams, String.length_append] at hl
      exact absurd hl.1 (by decide)
    · intro h
      have hl := congrArg String.length h
      simp [makeSessionParams, String.length_append] at hl
      exact absurd hl.1 (by decide)
  · intro s1 s2 hne hc
    apply hne
    have hroom : "voice-demo-" ++ s1 = "voice-demo-" ++ s2 :=
      congrArg SessionParams.roomName hc
    have hd := congrArg String.data hroom
    simp only [String.data_append] at hd
    exact String.ext (List.append_cancel_left hd)

/-- Witness for C8 at concrete inputs: attempts 0 and 1 of one mount share
their pair, the pair of a concrete mount is non-empty, and two mounts with
distinct ids get distinct pairs. -/
theorem c8_params_witness :
    attemptParams "id-a" 0 = attemptParams "id-a" 1 ∧
    (makeSessionParams "id-a").roomName ≠ "" ∧
    makeSessionParams "id-a" ≠ makeSessionParams "id-b" :=
  ⟨c8_params_per_mount_amended.1 "id-a" 0 1,
   (c8_params_per_mount_amended.2.1 "id-a").1,
   c8_params_per_mount_amended.2.2 "id-a" "id-b" (by decide)⟩

/- ## Push-to-talk capture

startTalking in ConnectedMicPanel first sets the talking flag to true and
only then awaits enabling the microphone; a rejected enable leaves the flag
set, with no catch and no rollback.  stopTalking symmetrically clears the
flag first and then awaits disabling the microphone.  The success of the
awaited microphone call is a Boolean parameter of the model. -/

/-- Talking flag plus microphone publishing state. -/
structure TalkState where
  isPushToTalkActive : Bool
  micEnabled : Bool
deriving DecidableEq

/-- startTalking: the flag is set before the microphone-enable call; on a
failed enable nothing is rolled back. -/
def startTalking (micEnableSucceeds : Bool) (s : TalkState) : TalkState :=
  if micEnableSucceeds then
    { s with isPushToTalkActive := true, micEnabled := true }
  else
    { s with isPushToTalkActive := true }

/-- stopTalking: the flag is cleared before the microphone-disable call. -/
def stopTalking (micDisableSucceeds : Bool) (s : TalkState) : TalkState :=
  if micDisableSucceeds then
    { s with isPushToTalkActive := false, micEnabled := false }
  else
    { s with isPushToTalkActive := false }

/-- Counterexample to C6 as stated: a press during which the microphone
enable fails leaves the talking flag on while the microphone stays off —
the flag changed without the publishing state. -/
theorem c6_talk_flag_counterexample :
    (startTalking false
        { isPushToTalkActive := false, micEnabled := false }).isPushToTalkActive = true ∧
    (startTalking false
        { isPushToTalkActive := false, micEnabled := false }).micEnabled = false := by
  exact ⟨rfl, rfl⟩

/-- C6 amended: when enabling the microphone fails during a push-to-talk
press, the talking flag has already been set on (it is written before the
enable attempt) and is not rolled back, while the microphone publishing
state is unchanged; the flag goes off again on any release, whether or not
disabling succeeds. -/
theorem c6_talk_flag_amended :
    (∀ s : TalkState,
        (startTalking false s).isPushToTalkActive = true ∧
        (startTalking false s).micEnabled = s.micEnabled) ∧
    (∀ (ok : Bool) (s : TalkState),
        (stopTalking ok s).isPushToTalkActive = false) := by
  constructor
  · intro s
    exact ⟨rfl, rfl⟩
  · intro ok s
    cases ok <;> rfl
